import Mathlib

/-!
Verification of the ClawTrading `rust-indexer` bootstrap
(`src/rust-indexer/src/main.rs`).

The program is a linear startup followed by an infinite loop:

1. `dotenv().ok()` — best-effort merge of an optional `.env` file into the
   process environment (the `dotenv` crate sets a variable from the file only
   when it is not already present in the environment);
2. `env::var("ETH_RPC_URL").expect("Please set ETH_RPC_URL in .env")`;
3. two `println!` lines: a banner and `Target RPC: <value>`;
4. `rpc_url_str.parse::<Url>().expect("Invalid RPC URL format")`;
5. `ProviderBuilder::new().on_http(rpc_url)` — an infallible, lazy
   construction of the provider handle (no `Result`, no network I/O);
6. a confirmation line, then `loop { println!("Scanning for events... (Stub)");
   sleep(Duration::from_secs(5)).await; }`.

URL parsing is performed by the external `url` crate (not part of this
repository), so the embedding is parameterised by an arbitrary parsing
function `parse : String → Option Url`; every general theorem holds for
every parser.  For concrete witnesses a parser modelled from the spec's
words is supplied (`specParseUrl`).

The process environment is modelled as an association list with
first-match lookup; the output of the (possibly infinite) run is modelled
as a stream of `Option String` lines.
-/

/-- The process environment: an association list from variable names to
values, first binding wins. -/
def EnvMap : Type := List (String × String)

/-- Reading a variable from the environment (`env::var`): the first binding
for the name, if any. -/
def lookupEnv (env : EnvMap) (k : String) : Option String :=
  (env.find? (fun p => p.1 == k)).map (fun p => p.2)

/-- One `env::set_var`-if-absent step of the `dotenv` crate: a key/value pair
from the `.env` file is added to the environment only when the variable is
not already set. -/
def setVarIfUnset (env : EnvMap) (kv : String × String) : EnvMap :=
  if lookupEnv env kv.1 = none then kv :: env else env

/-- The `dotenv().ok()` call: `none` models an absent `.env` file (ignored,
best-effort); `some kvs` models a file whose key/value pairs are merged into
the environment, never overwriting variables that are already set. -/
def dotenv : Option (List (String × String)) → EnvMap → EnvMap
  | none, env => env
  | some kvs, env => kvs.foldl setVarIfUnset env

/-- The opaque provider handle produced by
`ProviderBuilder::new().on_http(rpc_url)`: a capability bound to the
endpoint it was constructed from. -/
structure ProviderHandle (Url : Type) where
  endpoint : Url
deriving DecidableEq

/-- The `on_http` constructor of the provider builder: total (it returns the
handle directly, there is no error branch) and lazy (pure construction, no
network effect in the embedding because there is none in the call). -/
def on_http (Url : Type) (u : Url) : ProviderHandle Url :=
  ⟨u⟩

/-- Outcome of the startup portion of `main`: either the process aborts
(an `expect` fires) after printing `printed` and carrying the panic message
`errMsg`, or it reaches the infinite scan loop with `printed` initialization
lines, the validated endpoint, and the acquired provider handle. -/
inductive InitResult (Url : Type) where
  | abort (printed : List String) (errMsg : String)
  | scanning (printed : List String) (endpoint : Url) (provider : ProviderHandle Url)
deriving DecidableEq

/-- The banner and echo lines printed right after the variable is read:
`Kakuzu Observer initializing...` and `Target RPC: <raw string>`. -/
def initLines (s : String) : List String :=
  ["Kakuzu Observer initializing...", "Target RPC: " ++ s]

/-- The confirmation line printed after provider-handle acquisition. -/
def providerLine : String :=
  "Provider initialized. Starting subscription loop stub..."

/-- The diagnostic line emitted by every scan cycle. -/
def scanCycleLine : String :=
  "Scanning for events... (Stub)"

/-- The fixed suspension interval between cycles, in seconds. -/
def sleepSecs : Nat := 5

/-- One step of the loop body. -/
inductive Step where
  | emit (line : String)
  | sleepFor (secs : Nat)
deriving DecidableEq

/-- Scan cycle number `n` of the loop body: emit the diagnostic line, then
sleep for the fixed interval.  The body reads no state, so it does not
depend on `n`. -/
def scanCycle (_n : Nat) : List Step :=
  [Step.emit scanCycleLine, Step.sleepFor sleepSecs]

/-- The part of `main` after the `dotenv` call, acting on the (merged)
environment: read `ETH_RPC_URL` or abort, print the banner and the raw
value, parse the value or abort, acquire the provider handle, print the
confirmation, and enter the loop. -/
def loadConfigAndRun (Url : Type) (parse : String → Option Url)
    (env : EnvMap) : InitResult Url :=
  match lookupEnv env "ETH_RPC_URL" with
  | none => .abort [] "Please set ETH_RPC_URL in .env"
  | some s =>
    match parse s with
    | none => .abort (initLines s) "Invalid RPC URL format"
    | some u => .scanning (initLines s ++ [providerLine]) u (on_http Url u)

/-- The whole of `main`: merge the optional `.env` file into the
environment, then run the startup on the merged environment. -/
def mainRun (Url : Type) (parse : String → Option Url)
    (envFile : Option (List (String × String))) (env : EnvMap) : InitResult Url :=
  loadConfigAndRun Url parse (dotenv envFile env)

/-- Line `n` of the process's standard output.  An aborted run prints only
its finite prefix; a run that reached the loop prints its initialization
lines and then the scan-cycle diagnostic forever (the loop has no exit). -/
def outputLine {Url : Type} (r : InitResult Url) (n : Nat) : Option String :=
  match r with
  | .abort printed _ => printed[n]?
  | .scanning printed _ _ =>
    if n < printed.length then printed[n]? else some scanCycleLine

/-- The two control states of the program. -/
inductive ObserverState where
  | initializing
  | scanning
deriving DecidableEq

/-- The control state at step `n` of a run: an aborted run never leaves
`Initializing`; a run that acquired the handle is in `Initializing` at
step 0 and in `Scanning` at every later step. -/
def stateAt {Url : Type} (r : InitResult Url) (n : Nat) : ObserverState :=
  match r with
  | .abort _ _ => .initializing
  | .scanning _ _ _ => if n = 0 then .initializing else .scanning

/-- Whether the run reached loop startup. -/
def reachesLoop {Url : Type} : InitResult Url → Bool
  | .scanning _ _ _ => true
  | .abort _ _ => false

/-- Characters allowed in a URL scheme after its first letter. -/
def isSchemeChar (c : Char) : Bool :=
  c.isAlphanum || c == '+' || c == '-' || c == '.'

/-- Helper for `specUrlParses`: the remaining characters reach a `:` through
scheme characters. -/
def schemeRest : List Char → Bool
  | [] => false
  | c :: cs => if c == ':' then true else isSchemeChar c && schemeRest cs

/-- Modelled from the spec: "standard URL parsing" is done by the external
`url` crate, which is not part of this repository.  An absolute URL must
begin with a scheme — an ASCII letter followed by letters, digits, `+`, `-`
or `.` — terminated by `:` ("any scheme accepted by standard URL parsing");
a string without one, such as `not-a-url`, fails to parse.  This predicate
captures exactly that scheme requirement and is used only at concrete
inputs on which it agrees with the real parser. -/
def specUrlParses (s : String) : Bool :=
  match s.toList with
  | [] => false
  | c :: cs => c.isAlpha && schemeRest cs

/-- Modelled from the spec: the concrete instantiation of the URL-parsing
parameter used by witnesses, with `Url := String` (the parsed form of an
accepted string is represented by the string itself). -/
def specParseUrl (s : String) : Option String :=
  if specUrlParses s then some s else none

/-! Helper lemmas about environment lookup under the `.env` merge. -/

/-- A variable that is already set keeps its value across one merge step. -/
lemma lookupEnv_setVarIfUnset_of_some (env : EnvMap) (kv : String × String)
    (k v : String) (h : lookupEnv env k = some v) :
    lookupEnv (setVarIfUnset env kv) k = some v := by
  unfold setVarIfUnset
  split
  · rename_i hnone
    by_cases hk : kv.1 = k
    · rw [hk, h] at hnone
      exact absurd hnone (by simp)
    · simpa [lookupEnv, List.find?_cons, beq_iff_eq, hk] using h
  · exact h

/-- A merge step for a different variable does not change the lookup. -/
lemma lookupEnv_setVarIfUnset_ne (env : EnvMap) (kv : String × String)
    (k : String) (h : kv.1 ≠ k) :
    lookupEnv (setVarIfUnset env kv) k = lookupEnv env k := by
  unfold setVarIfUnset
  split
  · simp [lookupEnv, List.find?_cons, beq_iff_eq, h]
  · rfl

/-- A variable that is already set in the process environment keeps its value
across the whole `.env` merge: `dotenv` never overwrites. -/
lemma lookupEnv_dotenv_of_some (file : Option (List (String × String)))
    (env : EnvMap) (k v : String) (h : lookupEnv env k = some v) :
    lookupEnv (dotenv file env) k = some v := by
  cases file with
  | none => exact h
  | some kvs =>
    induction kvs generalizing env with
    | nil => exact h
    | cons kv rest ih =>
      exact ih (setVarIfUnset env kv) (lookupEnv_setVarIfUnset_of_some env kv k v h)

/-- For a variable that is unset in the process environment, the merged value
is the `.env` file's own (first) binding for it. -/
lemma lookupEnv_dotenv_of_none (kvs : List (String × String)) (env : EnvMap)
    (k : String) (h : lookupEnv env k = none) :
    lookupEnv (dotenv (some kvs) env) k = lookupEnv kvs k := by
  induction kvs generalizing env with
  | nil => simpa [dotenv, lookupEnv] using h
  | cons kv rest ih =>
    show lookupEnv (dotenv (some rest) (setVarIfUnset env kv)) k = _
    by_cases hk : kv.1 = k
    · have hset : setVarIfUnset env kv = kv :: env := by
        unfold setVarIfUnset
        rw [hk, h, if_pos rfl]
      rw [hset]
      have hkv : lookupEnv (kv :: env) k = some kv.2 := by
        simp [lookupEnv, List.find?_cons, beq_iff_eq, hk]
      rw [lookupEnv_dotenv_of_some (some rest) (kv :: env) k kv.2 hkv]
      simp [lookupEnv, List.find?_cons, beq_iff_eq, hk]
    · have hset : lookupEnv (setVarIfUnset env kv) k = none := by
        rw [lookupEnv_setVarIfUnset_ne env kv k hk, h]
      rw [ih (setVarIfUnset env kv) hset]
      simp [lookupEnv, List.find?_cons, beq_iff_eq, hk]

/-- A line of the form `Target RPC: <s>` starts with `T`, so it can never
coincide with a line whose first character is not `T`. -/
lemma targetLine_ne_of_head (s t : String) (ht : t.data.head? ≠ some 'T') :
    "Target RPC: " ++ s ≠ t := by
  intro h
  apply ht
  rw [← h]
  rfl

/-- The echo of the raw value is never the provider-confirmation line. -/
lemma targetLine_ne_providerLine (s : String) :
    "Target RPC: " ++ s ≠ providerLine :=
  targetLine_ne_of_head s providerLine (by decide)

/-- The echo of the raw value is never the scan-cycle diagnostic line. -/
lemma targetLine_ne_scanCycleLine (s : String) :
    "Target RPC: " ++ s ≠ scanCycleLine :=
  targetLine_ne_of_head s scanCycleLine (by decide)

/-! Claim theorems. -/

/-- C1 counterexample: the claim, as stated, quantifies over program starts
with `ETH_RPC_URL` unset in the process environment.  When the optional
`.env` file supplies a valid value for it, the program does not abort: it
reaches the scan loop.  Concretely, with an initially empty environment and
a `.env` file binding `ETH_RPC_URL` to `http://localhost:8545`, the run
reaches `Scanning` and no configuration error is reported. -/
theorem c1_counterexample :
    lookupEnv ([] : EnvMap) "ETH_RPC_URL" = none ∧
    mainRun String specParseUrl (some [("ETH_RPC_URL", "http://localhost:8545")]) []
      = InitResult.scanning
          ["Kakuzu Observer initializing...", "Target RPC: http://localhost:8545",
            providerLine]
          "http://localhost:8545" (on_http String "http://localhost:8545") ∧
    reachesLoop
      (mainRun String specParseUrl (some [("ETH_RPC_URL", "http://localhost:8545")]) [])
      = true := by
  refine ⟨rfl, by decide, by decide⟩

/-- C1 (amended): if `ETH_RPC_URL` is unset in the effective environment —
unset at program start and not supplied by the optional `.env` file, i.e.
unset after the merge — the program aborts with the configuration error
`Please set ETH_RPC_URL in .env` before the scan loop is entered, printing
nothing at all (in particular, no scan-cycle diagnostic line). -/
theorem c1_missing_var_aborts (Url : Type) (parse : String → Option Url)
    (file : Option (List (String × String))) (env : EnvMap)
    (h : lookupEnv (dotenv file env) "ETH_RPC_URL" = none) :
    mainRun Url parse file env = .abort [] "Please set ETH_RPC_URL in .env" ∧
    reachesLoop (mainRun Url parse file env) = false ∧
    ∀ n, outputLine (mainRun Url parse file env) n = none := by
  unfold mainRun loadConfigAndRun
  rw [h]
  refine ⟨rfl, rfl, fun n => ?_⟩
  simp [outputLine]

/-- C1 witness: with an empty environment and no `.env` file, the hypothesis
of `c1_missing_var_aborts` holds and the program aborts with the
configuration error. -/
theorem c1_witness :
    lookupEnv (dotenv none ([] : EnvMap)) "ETH_RPC_URL" = none ∧
    mainRun String specParseUrl none []
      = .abort [] "Please set ETH_RPC_URL in .env" :=
  ⟨rfl, (c1_missing_var_aborts String specParseUrl none [] rfl).1⟩

/-- C2: for every value of `ETH_RPC_URL` (in the effective environment) that
the URL parser accepts, startup succeeds and the Endpoint carried into the
scan loop is exactly the parser's result, with no further alteration. -/
theorem c2_endpoint_eq_parse (Url : Type) (parse : String → Option Url)
    (file : Option (List (String × String))) (env : EnvMap) (s : String) (u : Url)
    (hs : lookupEnv (dotenv file env) "ETH_RPC_URL" = some s)
    (hu : parse s = some u) :
    mainRun Url parse file env
      = .scanning (initLines s ++ [providerLine]) u (on_http Url u) := by
  simp only [mainRun, loadConfigAndRun, hs, hu]

/-- C2 witness: at `ETH_RPC_URL=http://localhost:8545` the parser accepts the
string and the endpoint is exactly the parsed value. -/
theorem c2_witness :
    lookupEnv (dotenv none [("ETH_RPC_URL", "http://localhost:8545")]) "ETH_RPC_URL"
      = some "http://localhost:8545" ∧
    specParseUrl "http://localhost:8545" = some "http://localhost:8545" ∧
    mainRun String specParseUrl none [("ETH_RPC_URL", "http://localhost:8545")]
      = .scanning (initLines "http://localhost:8545" ++ [providerLine])
          "http://localhost:8545" (on_http String "http://localhost:8545") :=
  ⟨by decide, by decide,
    c2_endpoint_eq_parse String specParseUrl none
      [("ETH_RPC_URL", "http://localhost:8545")] "http://localhost:8545"
      "http://localhost:8545" (by decide) (by decide)⟩

/-- C3: every value of `ETH_RPC_URL` that fails URL parsing makes the run
abort with the `Invalid RPC URL format` error; only the banner and the raw
echo are ever printed — nothing from index 2 on, no provider-confirmation
line and no scan-cycle line — and loop startup is never reached. -/
theorem c3_parse_failure_aborts (Url : Type) (parse : String → Option Url)
    (file : Option (List (String × String))) (env : EnvMap) (s : String)
    (hs : lookupEnv (dotenv file env) "ETH_RPC_URL" = some s)
    (hu : parse s = none) :
    mainRun Url parse file env = .abort (initLines s) "Invalid RPC URL format" ∧
    reachesLoop (mainRun Url parse file env) = false ∧
    (∀ n, 2 ≤ n → outputLine (mainRun Url parse file env) n = none) ∧
    (∀ n, outputLine (mainRun Url parse file env) n ≠ some providerLine) ∧
    (∀ n, outputLine (mainRun Url parse file env) n ≠ some scanCycleLine) := by
  have heq : mainRun Url parse file env
      = .abort (initLines s) "Invalid RPC URL format" := by
    simp only [mainRun, loadConfigAndRun, hs, hu]
  rw [heq]
  refine ⟨rfl, rfl, fun n hn => ?_, fun n h => ?_, fun n h => ?_⟩
  · rcases n with _ | _ | n
    · omega
    · omega
    · simp [outputLine, initLines]
  · rcases n with _ | _ | n
    · simp [outputLine, initLines, providerLine] at h
    · simp [outputLine, initLines] at h
      exact targetLine_ne_providerLine s h
    · simp [outputLine, initLines] at h
  · rcases n with _ | _ | n
    · simp [outputLine, initLines, scanCycleLine] at h
    · simp [outputLine, initLines] at h
      exact targetLine_ne_scanCycleLine s h
    · simp [outputLine, initLines] at h

/-- C3 witness: at `ETH_RPC_URL=not-a-url` the parser rejects the value and
the run aborts with the URL-parse error before provider acquisition. -/
theorem c3_witness :
    lookupEnv (dotenv none [("ETH_RPC_URL", "not-a-url")]) "ETH_RPC_URL"
      = some "not-a-url" ∧
    specParseUrl "not-a-url" = none ∧
    mainRun String specParseUrl none [("ETH_RPC_URL", "not-a-url")]
      = .abort (initLines "not-a-url") "Invalid RPC URL format" :=
  ⟨by decide, by decide,
    (c3_parse_failure_aborts String specParseUrl none
      [("ETH_RPC_URL", "not-a-url")] "not-a-url" (by decide) (by decide)).1⟩

/-- C4: the program is a two-state machine.  For any run that successfully
acquired the provider handle: the state starts at `Initializing`, the
transition to `Scanning` happens at step 0 and nowhere else (exactly once,
immediately after acquisition), there is no transition back, and the run
never reaches a terminal state — every step has an observable next output
(the loop has no exit condition). -/
theorem c4_two_state_machine (Url : Type) (parse : String → Option Url)
    (file : Option (List (String × String))) (env : EnvMap)
    (printed : List String) (ep : Url) (pr : ProviderHandle Url)
    (h : mainRun Url parse file env = .scanning printed ep pr) :
    stateAt (mainRun Url parse file env) 0 = .initializing ∧
    (∀ n, 1 ≤ n → stateAt (mainRun Url parse file env) n = .scanning) ∧
    (∀ n, (stateAt (mainRun Url parse file env) n = .initializing ∧
        stateAt (mainRun Url parse file env) (n + 1) = .scanning) ↔ n = 0) ∧
    (∀ n, ¬(stateAt (mainRun Url parse file env) n = .scanning ∧
        stateAt (mainRun Url parse file env) (n + 1) = .initializing)) ∧
    (∀ n, (outputLine (mainRun Url parse file env) n).isSome = true) := by
  rw [h]
  refine ⟨rfl, fun n hn => ?_, fun n => ?_, fun n hc => ?_, fun n => ?_⟩
  · have hne : n ≠ 0 := by omega
    simp [stateAt, hne]
  · constructor
    · rintro ⟨h1, _⟩
      by_contra hne
      simp [stateAt, hne] at h1
    · rintro rfl
      exact ⟨rfl, rfl⟩
  · obtain ⟨_, h2⟩ := hc
    simp [stateAt] at h2
  · by_cases hn : n < printed.length
    · simp [outputLine, hn, List.getElem?_eq_getElem hn]
    · simp [outputLine, hn]

/-- C4 witness: a concrete successful run; the transition characterization
holds there, e.g. state 0 is `Initializing` and state 1 is `Scanning`. -/
theorem c4_witness :
    mainRun String specParseUrl none [("ETH_RPC_URL", "http://localhost:8545")]
      = .scanning (initLines "http://localhost:8545" ++ [providerLine])
          "http://localhost:8545" (on_http String "http://localhost:8545") ∧
    stateAt (mainRun String specParseUrl none
      [("ETH_RPC_URL", "http://localhost:8545")]) 0 = .initializing ∧
    stateAt (mainRun String specParseUrl none
      [("ETH_RPC_URL", "http://localhost:8545")]) 1 = .scanning :=
  ⟨by decide,
    (c4_two_state_machine String specParseUrl none
      [("ETH_RPC_URL", "http://localhost:8545")]
      (initLines "http://localhost:8545" ++ [providerLine]) "http://localhost:8545"
      (on_http String "http://localhost:8545") (by decide)).1,
    (c4_two_state_machine String specParseUrl none
      [("ETH_RPC_URL", "http://localhost:8545")]
      (initLines "http://localhost:8545" ++ [providerLine]) "http://localhost:8545"
      (on_http String "http://localhost:8545") (by decide)).2.1 1 (by omega)⟩

/-- C5: every scan cycle `n ≥ 1` performs exactly the same two steps in
order — emit the diagnostic line, then sleep the fixed 5-second interval —
cycle `n` and cycle `n + 1` are structurally identical, and for every run
that reached the loop the cycle-`n` diagnostic actually appears in the
output (so there is no upper bound on the iteration count). -/
theorem c5_cycle_repetition (Url : Type) (parse : String → Option Url)
    (file : Option (List (String × String))) (env : EnvMap)
    (printed : List String) (ep : Url) (pr : ProviderHandle Url) (n : Nat)
    (hn : 1 ≤ n)
    (h : mainRun Url parse file env = .scanning printed ep pr) :
    scanCycle n = [Step.emit scanCycleLine, Step.sleepFor 5] ∧
    scanCycle (n + 1) = scanCycle n ∧
    sleepSecs = 5 ∧
    outputLine (mainRun Url parse file env) (printed.length + n)
      = some scanCycleLine := by
  refine ⟨rfl, rfl, rfl, ?_⟩
  rw [h]
  have hge : ¬(printed.length + n < printed.length) := by omega
  simp [outputLine, hge]

/-- C5 witness: cycle 1 of the concrete successful run. -/
theorem c5_witness :
    (1 : Nat) ≤ 1 ∧
    mainRun String specParseUrl none [("ETH_RPC_URL", "http://localhost:8545")]
      = .scanning (initLines "http://localhost:8545" ++ [providerLine])
          "http://localhost:8545" (on_http String "http://localhost:8545") ∧
    scanCycle 1 = [Step.emit scanCycleLine, Step.sleepFor 5] ∧
    outputLine (mainRun String specParseUrl none
        [("ETH_RPC_URL", "http://localhost:8545")])
        ((initLines "http://localhost:8545" ++ [providerLine]).length + 1)
      = some scanCycleLine :=
  ⟨by decide, by decide,
    (c5_cycle_repetition String specParseUrl none
      [("ETH_RPC_URL", "http://localhost:8545")]
      (initLines "http://localhost:8545" ++ [providerLine]) "http://localhost:8545"
      (on_http String "http://localhost:8545") 1 (by omega) (by decide)).1,
    (c5_cycle_repetition String specParseUrl none
      [("ETH_RPC_URL", "http://localhost:8545")]
      (initLines "http://localhost:8545" ++ [providerLine]) "http://localhost:8545"
      (on_http String "http://localhost:8545") 1 (by omega) (by decide)).2.2.2⟩

/-- C6: once the endpoint has passed URL validation, provider-handle
acquisition cannot fail: `on_http` is a total constructor that lazily binds
the endpoint (no error branch exists), and a run whose value parses always
reaches the scan loop — the post-validation error branch is unreachable. -/
theorem c6_acquisition_infallible (Url : Type) (parse : String → Option Url)
    (file : Option (List (String × String))) (env : EnvMap) (s : String) (u : Url)
    (hs : lookupEnv (dotenv file env) "ETH_RPC_URL" = some s)
    (hu : parse s = some u) :
    (on_http Url u).endpoint = u ∧
    reachesLoop (mainRun Url parse file env) = true ∧
    mainRun Url parse file env
      = .scanning (initLines s ++ [providerLine]) u (on_http Url u) := by
  have heq : mainRun Url parse file env
      = .scanning (initLines s ++ [providerLine]) u (on_http Url u) := by
    simp only [mainRun, loadConfigAndRun, hs, hu]
  rw [heq]
  exact ⟨rfl, rfl, rfl⟩

/-- C6 witness: the concrete valid endpoint is bound into the handle and the
run reaches the loop. -/
theorem c6_witness :
    specParseUrl "http://localhost:8545" = some "http://localhost:8545" ∧
    (on_http String "http://localhost:8545").endpoint = "http://localhost:8545" ∧
    reachesLoop (mainRun String specParseUrl none
      [("ETH_RPC_URL", "http://localhost:8545")]) = true :=
  ⟨by decide,
    (c6_acquisition_infallible String specParseUrl none
      [("ETH_RPC_URL", "http://localhost:8545")] "http://localhost:8545"
      "http://localhost:8545" (by decide) (by decide)).1,
    (c6_acquisition_infallible String specParseUrl none
      [("ETH_RPC_URL", "http://localhost:8545")] "http://localhost:8545"
      "http://localhost:8545" (by decide) (by decide)).2.1⟩

/-- C7: loading the optional `.env` file is best-effort: an absent file
leaves the environment untouched and startup proceeds exactly as on the
plain environment (absence is not an error), whereas a present file's
key/value pairs are merged into the environment before `ETH_RPC_URL` is
read — in particular, when the variable is unset in the process environment
the value read is precisely the file's own binding. -/
theorem c7_dotenv_best_effort (Url : Type) (parse : String → Option Url)
    (env : EnvMap) (kvs : List (String × String))
    (h : lookupEnv env "ETH_RPC_URL" = none) :
    dotenv none env = env ∧
    mainRun Url parse none env = loadConfigAndRun Url parse env ∧
    mainRun Url parse (some kvs) env
      = loadConfigAndRun Url parse (dotenv (some kvs) env) ∧
    lookupEnv (dotenv (some kvs) env) "ETH_RPC_URL" = lookupEnv kvs "ETH_RPC_URL" := by
  exact ⟨rfl, rfl, rfl, lookupEnv_dotenv_of_none kvs env "ETH_RPC_URL" h⟩

/-- C7 witness: with `ETH_RPC_URL` unset in an empty environment, an absent
file changes nothing, and a file binding the variable is merged before the
read (the value read is the file's). -/
theorem c7_witness :
    lookupEnv ([] : EnvMap) "ETH_RPC_URL" = none ∧
    dotenv none ([] : EnvMap) = [] ∧
    lookupEnv (dotenv (some [("ETH_RPC_URL", "http://localhost:8545")]) [])
        "ETH_RPC_URL"
      = lookupEnv [("ETH_RPC_URL", "http://localhost:8545")] "ETH_RPC_URL" :=
  ⟨rfl,
    (c7_dotenv_best_effort String specParseUrl []
      [("ETH_RPC_URL", "http://localhost:8545")] rfl).1,
    (c7_dotenv_best_effort String specParseUrl []
      [("ETH_RPC_URL", "http://localhost:8545")] rfl).2.2.2⟩

/-- C8: noninterference of the configured endpoint.  For any two runs whose
`ETH_RPC_URL` values both parse, the output streams agree at every index
except index 1 — the `Target RPC` echo line — because the provider handle is
bound but never used by the loop, so post-initialization output does not
depend on which valid endpoint was configured. -/
theorem c8_endpoint_noninterference (Url : Type) (parse : String → Option Url)
    (f1 f2 : Option (List (String × String))) (e1 e2 : EnvMap)
    (s1 s2 : String) (u1 u2 : Url)
    (h1 : lookupEnv (dotenv f1 e1) "ETH_RPC_URL" = some s1)
    (h2 : parse s1 = some u1)
    (h3 : lookupEnv (dotenv f2 e2) "ETH_RPC_URL" = some s2)
    (h4 : parse s2 = some u2) :
    (∀ n, n ≠ 1 →
      outputLine (mainRun Url parse f1 e1) n = outputLine (mainRun Url parse f2 e2) n) ∧
    outputLine (mainRun Url parse f1 e1) 1 = some ("Target RPC: " ++ s1) ∧
    outputLine (mainRun Url parse f2 e2) 1 = some ("Target RPC: " ++ s2) := by
  have heq1 : mainRun Url parse f1 e1
      = .scanning (initLines s1 ++ [providerLine]) u1 (on_http Url u1) := by
    simp only [mainRun, loadConfigAndRun, h1, h2]
  have heq2 : mainRun Url parse f2 e2
      = .scanning (initLines s2 ++ [providerLine]) u2 (on_http Url u2) := by
    simp only [mainRun, loadConfigAndRun, h3, h4]
  rw [heq1, heq2]
  refine ⟨fun n hn => ?_, by simp [outputLine, initLines], by simp [outputLine, initLines]⟩
  rcases n with _ | _ | _ | n
  · simp [outputLine, initLines]
  · exact absurd rfl hn
  · simp [outputLine, initLines]
  · simp [outputLine, initLines]

/-- C8 witness: two runs configured with the distinct valid endpoints
`http://localhost:8545` and `https://example.org:443` agree on output line 0
(and differ only in the echo line). -/
theorem c8_witness :
    specParseUrl "http://localhost:8545" = some "http://localhost:8545" ∧
    specParseUrl "https://example.org:443" = some "https://example.org:443" ∧
    outputLine (mainRun String specParseUrl none
        [("ETH_RPC_URL", "http://localhost:8545")]) 0
      = outputLine (mainRun String specParseUrl none
        [("ETH_RPC_URL", "https://example.org:443")]) 0 ∧
    outputLine (mainRun String specParseUrl none
        [("ETH_RPC_URL", "http://localhost:8545")]) 1
      = some ("Target RPC: " ++ "http://localhost:8545") :=
  ⟨by decide, by decide,
    (c8_endpoint_noninterference String specParseUrl none none
      [("ETH_RPC_URL", "http://localhost:8545")]
      [("ETH_RPC_URL", "https://example.org:443")]
      "http://localhost:8545" "https://example.org:443"
      "http://localhost:8545" "https://example.org:443"
      (by decide) (by decide) (by decide) (by decide)).1 0 (by omega),
    (c8_endpoint_noninterference String specParseUrl none none
      [("ETH_RPC_URL", "http://localhost:8545")]
      [("ETH_RPC_URL", "https://example.org:443")]
      "http://localhost:8545" "https://example.org:443"
      "http://localhost:8545" "https://example.org:443"
      (by decide) (by decide) (by decide) (by decide)).2.1⟩

/-- C9: the raw value of `ETH_RPC_URL` is echoed to standard output before
URL validation: for every malformed value the unvalidated string still
appears as output line 1 (`Target RPC: <raw>`), even though the run then
aborts with the parse error. -/
theorem c9_echo_before_validation (Url : Type) (parse : String → Option Url)
    (file : Option (List (String × String))) (env : EnvMap) (s : String)
    (hs : lookupEnv (dotenv file env) "ETH_RPC_URL" = some s)
    (hu : parse s = none) :
    outputLine (mainRun Url parse file env) 1 = some ("Target RPC: " ++ s) ∧
    mainRun Url parse file env = .abort (initLines s) "Invalid RPC URL format" := by
  have heq : mainRun Url parse file env
      = .abort (initLines s) "Invalid RPC URL format" := by
    simp only [mainRun, loadConfigAndRun, hs, hu]
  rw [heq]
  exact ⟨by simp [outputLine, initLines], rfl⟩

/-- C9 witness: at the malformed value `not-a-url`, the unvalidated string
is printed in the `Target RPC` line and the run aborts with the parse
error. -/
theorem c9_witness :
    specParseUrl "not-a-url" = none ∧
    outputLine (mainRun String specParseUrl none [("ETH_RPC_URL", "not-a-url")]) 1
      = some ("Target RPC: " ++ "not-a-url") :=
  ⟨by decide,
    (c9_echo_before_validation String specParseUrl none
      [("ETH_RPC_URL", "not-a-url")] "not-a-url" (by decide) (by decide)).1⟩

/-- C10: a value of `ETH_RPC_URL` already present in the process environment
takes precedence over any binding in the optional `.env` file: the merge
never overwrites an existing variable, so the value read — and echoed in the
`Target RPC` line — is the pre-existing one. -/
theorem c10_env_precedence (Url : Type) (parse : String → Option Url)
    (file : Option (List (String × String))) (env : EnvMap) (v : String)
    (h : lookupEnv env "ETH_RPC_URL" = some v) :
    lookupEnv (dotenv file env) "ETH_RPC_URL" = some v ∧
    outputLine (mainRun Url parse file env) 1 = some ("Target RPC: " ++ v) := by
  have hpres := lookupEnv_dotenv_of_some file env "ETH_RPC_URL" v h
  refine ⟨hpres, ?_⟩
  cases hv : parse v with
  | none =>
    have heq : mainRun Url parse file env
        = .abort (initLines v) "Invalid RPC URL format" := by
      simp only [mainRun, loadConfigAndRun, hpres, hv]
    rw [heq]
    simp [outputLine, initLines]
  | some u =>
    have heq : mainRun Url parse file env
        = .scanning (initLines v ++ [providerLine]) u (on_http Url u) := by
      simp only [mainRun, loadConfigAndRun, hpres, hv]
    rw [heq]
    simp [outputLine, initLines]

/-- C10 witness: with `ETH_RPC_URL=http://a:1` already in the environment
and a `.env` file binding it to `http://b:2`, the merged environment still
yields `http://a:1` and that value is the one echoed. -/
theorem c10_witness :
    lookupEnv [("ETH_RPC_URL", "http://a:1")] "ETH_RPC_URL" = some "http://a:1" ∧
    lookupEnv (dotenv (some [("ETH_RPC_URL", "http://b:2")])
      [("ETH_RPC_URL", "http://a:1")]) "ETH_RPC_URL" = some "http://a:1" ∧
    outputLine (mainRun String specParseUrl (some [("ETH_RPC_URL", "http://b:2")])
      [("ETH_RPC_URL", "http://a:1")]) 1 = some ("Target RPC: " ++ "http://a:1") :=
  ⟨by decide,
    (c10_env_precedence String specParseUrl (some [("ETH_RPC_URL", "http://b:2")])
      [("ETH_RPC_URL", "http://a:1")] "http://a:1" (by decide)).1,
    (c10_env_precedence String specParseUrl (some [("ETH_RPC_URL", "http://b:2")])
      [("ETH_RPC_URL", "http://a:1")] "http://a:1" (by decide)).2⟩
